import Mathlib

/-!
# Verification of the `etheria_newBuildUsher` Lambda handler

A shallow embedding of `src/etheria_newBuildUsher/index.js`.

Modelling decisions:

* JavaScript runtime values are the inductive type `JSVal` (undefined, null,
  booleans, numbers, strings, arrays, plain objects).  JavaScript numbers are
  modelled by `JSNum`: an exact decimal `m * 10 ^ e`, `NaN`, or a signed
  infinity.  Real JS numbers are IEEE binary64; exact decimals are faithful
  for every value the handler manipulates (decimal string literals and small
  integers), and keep every operation kernel-computable.  The rational value
  of a finite number is `decValue`.
* String-to-number coercion (`Number(s)`, used by `isNaN(s)` and `s * 1`) and
  `parseFloat` are implemented from the ECMAScript grammar for string numeric
  literals (decimal with optional fraction/exponent, `Infinity`, hex/octal/
  binary integer forms, surrounding whitespace).
* `Set` element equality (SameValueZero) is `jsSVZ`: value equality on
  numbers (NaN equal to NaN), structural on the other primitives, and false
  on objects/arrays — the object values reaching the one `new Set` in the
  handler are freshly allocated by `JSON.parse`, hence never
  reference-identical.
* The platform builtins the handler calls but does not define — `JSON.parse`,
  `JSON.stringify` and `pako.deflate` — are parameters (`Platform`), exactly
  as the AWS collaborators (`lambda.invoke`, `dynamoDB.put`, `dynamoDB.get`)
  are an oracle `Env` giving each callback its `(err, data)` outcome.
* The handler is the pure function `handler`, returning the settled promise
  outcome together with the ordered trace of outbound calls.
-/

/-- A JavaScript number: an exact decimal `m * 10 ^ e`, NaN, or ±Infinity. -/
inductive JSNum where
  | num (m : Int) (e : Int)
  | nan
  | inf (positive : Bool)
deriving DecidableEq

/-- The rational value of the finite number `m * 10 ^ e`. -/
def decValue (m e : Int) : ℚ := (m : ℚ) * (10 : ℚ) ^ e

namespace JSNum

/-- `isNaN` on a JS number. -/
def isNaN : JSNum → Bool
  | .nan => true
  | _ => false

/-- JS unary negation on numbers. -/
def neg : JSNum → JSNum
  | .num m e => .num (-m) e
  | .nan => .nan
  | .inf b => .inf (!b)

/-- JS `>` between a number and an integer constant: false when NaN, the sign
when infinite, value comparison (cross-multiplied to stay in `Int`) when
finite. -/
def gtInt (n : JSNum) (c : Int) : Bool :=
  match n with
  | .nan => false
  | .inf b => b
  | .num m e =>
    if 0 ≤ e then decide (m * 10 ^ e.toNat > c) else decide (m > c * 10 ^ (-e).toNat)

/-- SameValueZero on numbers: NaN equals NaN, infinities by sign, finite
numbers by value (cross-multiplied to stay in `Int`). -/
def valEq : JSNum → JSNum → Bool
  | .nan, .nan => true
  | .inf a, .inf b => a == b
  | .num m1 e1, .num m2 e2 =>
    if e2 ≤ e1 then decide (m1 * 10 ^ (e1 - e2).toNat = m2)
    else decide (m1 = m2 * 10 ^ (e2 - e1).toNat)
  | _, _ => false

end JSNum

/-- A JavaScript runtime value, as far as the handler observes it. -/
inductive JSVal where
  | undefined
  | null
  | bool (b : Bool)
  | num (n : JSNum)
  | str (s : String)
  | arr (elems : List JSVal)
  | obj (fields : List (String × JSVal))

namespace JSVal

/-- JS truthiness (`!v` is `!truthy v`). -/
def truthy : JSVal → Bool
  | .undefined => false
  | .null => false
  | .bool b => b
  | .num n => match n with
    | .nan => false
    | .num m _ => decide (m ≠ 0)
    | .inf _ => true
  | .str s => decide (s ≠ "")
  | .arr _ => true
  | .obj _ => true

/-- Property access `v.k`: on an object, the value bound to the key (last
binding wins, as for duplicate keys in evaluated object literals); on every
other value the handler reads a named property from, `undefined`. -/
def getField : JSVal → String → JSVal
  | .obj fields, k =>
    match fields.reverse.find? (fun f => f.1 = k) with
    | some f => f.2
    | none => .undefined
  | _, _ => .undefined

/-- `Object.keys(v).length`: number of own enumerable keys — the bindings of
an object, one index key per element of an array, one per code unit of a
string, and none for primitives. -/
def keysCount : JSVal → Nat
  | .obj fields => fields.length
  | .arr elems => elems.length
  | .str s => s.length
  | _ => 0

/-- Is the value of JS type string? -/
def isStringVal : JSVal → Bool
  | .str _ => true
  | _ => false

end JSVal

/-- SameValueZero, the equality `Set` uses: value equality on numbers,
structural on the other primitives.  The object and array values that can
reach the handler's `new Set` are freshly allocated by `JSON.parse`, so no
two of them (and no object paired with a primitive) are reference-equal;
those comparisons are false. -/
def jsSVZ : JSVal → JSVal → Bool
  | .num a, .num b => a.valEq b
  | .str s, .str t => s == t
  | .bool a, .bool b => a == b
  | .null, .null => true
  | .undefined, .undefined => true
  | _, _ => false

/-! ## String-to-number coercion (`Number(s)`) and `parseFloat` -/

/-- The whitespace characters `Number` and `parseFloat` skip around a string
numeric literal (ECMAScript WhiteSpace and LineTerminator). -/
def jsWhitespace (c : Char) : Bool :=
  c = ' ' || c = '\t' || c = '\n' || c = '\r' || c = '\x0b' || c = '\x0c' ||
  c = ' ' || c = '﻿' || c = ' ' || c = ' '

/-- Value of a list of decimal digit characters. -/
def digitsVal (l : List Char) : Nat :=
  l.foldl (fun a c => 10 * a + (c.toNat - 48)) 0

/-- Is the character a hexadecimal digit? -/
def isHexDigitCh (c : Char) : Bool :=
  c.isDigit || ('a' ≤ c && c ≤ 'f') || ('A' ≤ c && c ≤ 'F')

/-- Value of one hexadecimal digit character. -/
def hexDigitVal (c : Char) : Nat :=
  if c.isDigit then c.toNat - 48
  else if 'a' ≤ c && c ≤ 'f' then c.toNat - 87
  else c.toNat - 55

/-- Value of a list of hexadecimal digit characters. -/
def hexDigitsVal (l : List Char) : Nat :=
  l.foldl (fun a c => 16 * a + hexDigitVal c) 0

/-- Is the character a binary digit? -/
def isBinDigitCh (c : Char) : Bool := c = '0' || c = '1'

/-- Is the character an octal digit? -/
def isOctDigitCh (c : Char) : Bool := '0' ≤ c && c ≤ '7'

/-- Value of a list of octal digit characters. -/
def octDigitsVal (l : List Char) : Nat :=
  l.foldl (fun a c => 8 * a + (c.toNat - 48)) 0

/-- Value of a list of binary digit characters. -/
def binDigitsVal (l : List Char) : Nat :=
  l.foldl (fun a c => 2 * a + (c.toNat - 48)) 0

/-- Does the character list start with the literal `Infinity`? -/
def startsInfinity : List Char → Bool
  | 'I' :: 'n' :: 'f' :: 'i' :: 'n' :: 'i' :: 't' :: 'y' :: _ => true
  | _ => false

/-- Parse an optional exponent part (`e`/`E`, optional sign, digits).  If the
characters do not form a complete exponent part, nothing is consumed and the
exponent is 0 — which is exactly how the longest-match literal grammar treats
a dangling `e`. -/
def parseExp (cs : List Char) : Int × List Char :=
  match cs with
  | c :: rest =>
    if c = 'e' || c = 'E' then
      match rest with
      | '+' :: r2 =>
        let d := r2.takeWhile Char.isDigit
        if d.isEmpty then (0, cs) else ((digitsVal d : Int), r2.dropWhile Char.isDigit)
      | '-' :: r2 =>
        let d := r2.takeWhile Char.isDigit
        if d.isEmpty then (0, cs) else (-(digitsVal d : Int), r2.dropWhile Char.isDigit)
      | _ =>
        let d := rest.takeWhile Char.isDigit
        if d.isEmpty then (0, cs) else ((digitsVal d : Int), rest.dropWhile Char.isDigit)
    else (0, cs)
  | [] => (0, cs)

/-- Parse the longest unsigned decimal literal prefix
(`Infinity`, `digits[.digits][exp]`, or `.digits[exp]`); `none` when no such
prefix exists.  Returns the value and the unconsumed remainder. -/
def parseUnsigned (cs : List Char) : Option (JSNum × List Char) :=
  if startsInfinity cs then some (.inf true, cs.drop 8)
  else
    let intD := cs.takeWhile Char.isDigit
    let r1 := cs.dropWhile Char.isDigit
    match r1 with
    | '.' :: r2 =>
      let fracD := r2.takeWhile Char.isDigit
      let r3 := r2.dropWhile Char.isDigit
      if intD.isEmpty && fracD.isEmpty then none
      else
        let (e, r4) := parseExp r3
        let m : Int := (digitsVal intD * 10 ^ fracD.length + digitsVal fracD : Nat)
        some (.num m (e - fracD.length), r4)
    | _ =>
      if intD.isEmpty then none
      else
        let (e, r4) := parseExp r1
        some (.num (digitsVal intD : Nat) e, r4)

/-- Parse the longest (optionally signed) decimal literal prefix. -/
def parseSigned (cs : List Char) : Option (JSNum × List Char) :=
  match cs with
  | '+' :: r => parseUnsigned r
  | '-' :: r => (parseUnsigned r).map (fun p => (p.1.neg, p.2))
  | _ => parseUnsigned cs

/-- ECMAScript `ToNumber` on a string: trim whitespace; empty means 0;
otherwise a hex/octal/binary integer literal or a fully-consuming signed
decimal literal; anything else is NaN. -/
def strToNumber (s : String) : JSNum :=
  let cs := ((s.data.dropWhile jsWhitespace).reverse.dropWhile jsWhitespace).reverse
  match cs with
  | [] => .num 0 0
  | '0' :: x :: rest =>
    if x = 'x' || x = 'X' then
      if !rest.isEmpty && rest.all isHexDigitCh then .num (hexDigitsVal rest : Nat) 0 else .nan
    else if x = 'o' || x = 'O' then
      if !rest.isEmpty && rest.all isOctDigitCh then .num (octDigitsVal rest : Nat) 0 else .nan
    else if x = 'b' || x = 'B' then
      if !rest.isEmpty && rest.all isBinDigitCh then .num (binDigitsVal rest : Nat) 0 else .nan
    else
      match parseSigned cs with
      | some (n, []) => n
      | _ => .nan
  | _ =>
    match parseSigned cs with
    | some (n, []) => n
    | _ => .nan

/-- `parseFloat(s)`: skip leading whitespace and take the longest decimal
literal prefix; NaN when there is none. -/
def parseFloatNum (s : String) : JSNum :=
  match parseSigned (s.data.dropWhile jsWhitespace) with
  | some (n, _) => n
  | none => .nan

/-- `isNumeric` of index.js, restricted to its string branch:
`!isNaN(str) && !isNaN(parseFloat(str))`. -/
def isNumericStr (s : String) : Bool :=
  !(strToNumber s).isNaN && !(parseFloatNum s).isNaN

/-- `isNumeric` of index.js: only strings are processed, every non-string
returns false. -/
def isNumeric : JSVal → Bool
  | .str s => isNumericStr s
  | _ => false

example : isNumericStr "42" = true := by decide
example : isNumericStr "3.14" = true := by decide
example : isNumericStr "abc" = false := by decide
example : isNumericStr "  " = false := by decide
example : isNumericStr "" = false := by decide
example : strToNumber "-5" = .num (-5) 0 := by decide
example : strToNumber "3.5" = .num 35 (-1) := by decide
example : strToNumber "1e3" = .num 1 3 := by decide
example : parseFloatNum "1e" = .num 1 0 := by decide
example : strToNumber "1e" = .nan := by decide
example : strToNumber "0x1F" = .num 31 0 := by decide
example : strToNumber " Infinity " = .inf true := by decide
example : strToNumber "  " = .num 0 0 := by decide
example : JSNum.gtInt (strToNumber "1089") 1088 = true := by decide
example : JSNum.gtInt (strToNumber "1088") 1088 = false := by decide

/-! ## The handler: outcome, call trace, environment -/

/-- An error value a rejection can carry: `new Error(msg)` from validation, or
an abstract error object handed to a callback by a collaborator. -/
inductive ErrVal where
  | error (msg : String)
  | ext (id : Nat)
deriving DecidableEq

/-- How the handler's promise settles: resolved (with no payload), rejected
with `some` error value or `none` for a bare `reject()`, or an exception
thrown inside a callback (which settles nothing; the invocation crashes). -/
inductive Outcome where
  | resolved
  | rejected (e : Option ErrVal)
  | thrown (kind : String)

/-- A record written to the `EtheriaBuildsUnified` table. -/
structure BuildItem where
  tileIndexAndVersion : String
  blockNumber : JSNum
  build : String
  tileIndex : JSVal
  version : JSVal
  hexString : JSVal

/-- An outbound call: the lambda invocation (carrying the forwarded
`hexString`), a build-record put, the global-var get, or the global-var put
(carrying the array passed to `JSON.stringify`; the store receives its
JSON serialization). -/
inductive Call where
  | invoke (hexString : JSVal)
  | putBuild (item : BuildItem)
  | getGlobal (name : String)
  | putGlobal (name : String) (value : List JSVal)

/-- Oracle for the collaborator services: the `(err, data)` outcome each
callback receives, in the order the handler issues the calls. -/
structure Env where
  invokeResult : Except ErrVal String
  put1Result : Option ErrVal
  put2Result : Option ErrVal
  getResult : Except ErrVal JSVal
  putIndexResult : Option ErrVal

/-- The platform builtins the handler uses as black boxes: `JSON.parse`
(`none` when it throws), `JSON.stringify`, and `pako.deflate(·, to:string)`. -/
structure Platform where
  jsonParse : String → Option JSVal
  stringify : JSVal → String
  deflate : String → String

/-- `s.slice(0, n)` on a JS string. -/
def jsSliceTo (s : String) (n : Nat) : String := ⟨s.data.take n⟩

/-- `s.slice(n)` on a JS string. -/
def jsSliceFrom (s : String) (n : Nat) : String := ⟨s.data.drop n⟩

/-! ## Validation (lines 47–91 of index.js) -/

/-- `event.params.querystring`. -/
def qsOf (event : JSVal) : JSVal :=
  (event.getField "params").getField "querystring"

/-- Line 47: `!event || Object.keys(event).length === 0`. -/
def checkEvent (event : JSVal) : Bool :=
  !event.truthy || event.keysCount == 0

/-- Line 52: `!event.params`. -/
def checkParams (event : JSVal) : Bool :=
  !(event.getField "params").truthy

/-- Line 57: `!event.params.querystring`. -/
def checkQuerystring (event : JSVal) : Bool :=
  !(qsOf event).truthy

/-- Line 63 condition on the `tileIndex` value: falsy, or not numeric, or
`tileIndex * 1 > 1088`.  A non-string value always fails: `isNumeric` is
false for it (the `* 1` coercion is then short-circuited away in JS and
irrelevant to the result). -/
def tileIndexBad : JSVal → Bool
  | .str s => s == "" || !isNumericStr s || (strToNumber s).gtInt 1088
  | _ => true

/-- Line 69 condition on the `blockNumber` value: falsy or not numeric; a
non-string value always fails (`isNumeric` is false for it). -/
def blockNumberBad : JSVal → Bool
  | .str s => s == "" || !isNumericStr s
  | _ => true

/-- Line 63 check on the event. -/
def checkTileIndex (event : JSVal) : Bool :=
  tileIndexBad ((qsOf event).getField "tileIndex")

/-- Line 69 check on the event. -/
def checkBlockNumber (event : JSVal) : Bool :=
  blockNumberBad ((qsOf event).getField "blockNumber")

/-- Line 75: `!event.params.querystring.hexString`. -/
def checkHexString (event : JSVal) : Bool :=
  !((qsOf event).getField "hexString").truthy

/-- Lines 81–88: `version` strictly equal to one of the four accepted
strings. -/
def versionOk : JSVal → Bool
  | .str s => s == "0.9" || s == "1.0" || s == "1.1" || s == "1.2"
  | _ => false

/-- Lines 81–88 check on the event. -/
def checkVersion (event : JSVal) : Bool :=
  !versionOk ((qsOf event).getField "version")

/-- The first validation failure, with its error message — `none` when the
event passes all seven checks.  The checks run in source order and
short-circuit. -/
def validationError (event : JSVal) : Option String :=
  if checkEvent event then some "event is invalid or missing"
  else if checkParams event then some "event.params is invalid or missing"
  else if checkQuerystring event then some "event.params.querystring is invalid or missing"
  else if checkTileIndex event then some "event.params.querystring.tileIndex is invalid or missing"
  else if checkBlockNumber event then some "event.params.querystring.blockNumber is invalid or missing"
  else if checkHexString event then some "event.params.querystring.hexString is invalid or missing"
  else if checkVersion event then some "Invalid or missing version parameter"
  else none

/-- The validation checks in source order, paired with their messages. -/
def checkList : List ((JSVal → Bool) × String) :=
  [(checkEvent, "event is invalid or missing"),
   (checkParams, "event.params is invalid or missing"),
   (checkQuerystring, "event.params.querystring is invalid or missing"),
   (checkTileIndex, "event.params.querystring.tileIndex is invalid or missing"),
   (checkBlockNumber, "event.params.querystring.blockNumber is invalid or missing"),
   (checkHexString, "event.params.querystring.hexString is invalid or missing"),
   (checkVersion, "Invalid or missing version parameter")]

/-! ## Set semantics for the build-index global variable -/

/-- `Set.prototype.add` restricted to what the spread observes: append the
value unless a SameValueZero-equal element is present. -/
def setInsert (l : List JSVal) (v : JSVal) : List JSVal :=
  if l.any (fun y => jsSVZ y v) then l else l ++ [v]

/-- `[...new Set(xs)]`: insertion order, first occurrence kept. -/
def setDedup (xs : List JSVal) : List JSVal :=
  xs.foldl setInsert []

/-- What `new Set(v)` iterates: the elements of an array, the one-character
strings of a string, nothing for null/undefined, and a TypeError (`none`)
for non-iterable values. -/
def iterTo : JSVal → Option (List JSVal)
  | .arr xs => some xs
  | .str s => some (s.data.map (fun c => .str ⟨[c]⟩))
  | .null => some []
  | .undefined => some []
  | _ => none

/-! ## The handler pipeline -/

/-- Lines 179–217 and 221–260 of index.js (the two copies are identical):
get the `buildIndicesV<version>` global var, `JSON.parse` its `.value`,
rebuild the deduplicated index with the coerced `tileIndex` added, and put
it back.  Reading `.value` when the get returned no `Item` throws a
TypeError; a failing final put calls `reject()` with no argument. -/
def indexUpdate (p : Platform) (env : Env) (tis v : String) : Outcome × List Call :=
  let name := "buildIndicesV" ++ v
  match env.getResult with
  | .error e => (.rejected (some e), [.getGlobal name])
  | .ok entry =>
    match entry.getField "Item" with
    | .undefined => (.thrown "TypeError", [.getGlobal name])
    | .null => (.thrown "TypeError", [.getGlobal name])
    | item =>
      match item.getField "value" with
      | .str s =>
        match p.jsonParse s with
        | none => (.thrown "SyntaxError", [.getGlobal name])
        | some parsed =>
          match iterTo parsed with
          | none => (.thrown "TypeError", [.getGlobal name])
          | some xs =>
            let upd := setInsert (setDedup xs) (.num (strToNumber tis))
            match env.putIndexResult with
            | some _ => (.rejected none, [.getGlobal name, .putGlobal name upd])
            | none => (.resolved, [.getGlobal name, .putGlobal name upd])
      | _ => (.thrown "TypeError", [.getGlobal name])

/-- Lines 94–265: the remote-call chain run for a validated event whose
`tileIndex`, `blockNumber` and `version` are the strings `tis`, `bns`, `v`
(validation guarantees they are strings) and whose `hexString` is `hs`. -/
def pipeline (p : Platform) (env : Env) (tis bns v : String) (hs : JSVal) :
    Outcome × List Call :=
  let calls0 : List Call := [.invoke hs]
  match env.invokeResult with
  | .error e => (.rejected (some e), calls0)
  | .ok payload =>
    match p.jsonParse payload with
    | none => (.thrown "SyntaxError", calls0)
    | some hexShapes =>
      let compressed := p.deflate (p.stringify hexShapes)
      let compressed1 :=
        if compressed.length > 300000 then jsSliceTo compressed 300000 else compressed
      let item1 : BuildItem :=
        ⟨tis ++ "v" ++ v, strToNumber bns, compressed1, .str tis, .str v, hs⟩
      let calls1 := calls0 ++ [.putBuild item1]
      match env.put1Result with
      | some e => (.rejected (some e), calls1)
      | none =>
        if compressed.length > 300000 then
          let item2 : BuildItem :=
            ⟨tis ++ "v" ++ v ++ "_2", strToNumber bns, jsSliceFrom compressed 300000,
              .str tis, .str v, hs⟩
          let calls2 := calls1 ++ [.putBuild item2]
          match env.put2Result with
          | some e => (.rejected (some e), calls2)
          | none =>
            let r := indexUpdate p env tis v
            (r.1, calls2 ++ r.2)
        else
          let r := indexUpdate p env tis v
          (r.1, calls1 ++ r.2)

/-- Projects the string out of a validated string-typed field. -/
def strOf : JSVal → String
  | .str s => s
  | _ => ""

/-- `exports.handler`: validate (rejecting on the first failing check with no
outbound call), then run the remote-call chain.  After validation,
`tileIndex`, `blockNumber` and `version` are necessarily strings
(`isNumeric` and the strict version comparison only accept strings), so
`strOf` is exact. -/
def handler (p : Platform) (env : Env) (event : JSVal) : Outcome × List Call :=
  match validationError event with
  | some msg => (.rejected (some (.error msg)), [])
  | none =>
    let qs := qsOf event
    pipeline p env (strOf (qs.getField "tileIndex")) (strOf (qs.getField "blockNumber"))
      (strOf (qs.getField "version")) (qs.getField "hexString")

/-- The build records written, in order: the `putBuild` calls of the trace. -/
def recordsWritten (r : Outcome × List Call) : List BuildItem :=
  r.2.filterMap (fun c => match c with | .putBuild i => some i | _ => none)

/-- The index lists written, in order: the `putGlobal` calls of the trace. -/
def indexWrites (r : Outcome × List Call) : List (String × List JSVal) :=
  r.2.filterMap (fun c => match c with | .putGlobal n l => some (n, l) | _ => none)

/-- An event of the wire shape
`{params: {querystring: {tileIndex, blockNumber, hexString, version}}}`. -/
def mkEvent (ti bn hs ver : JSVal) : JSVal :=
  .obj [("params", .obj [("querystring",
    .obj [("tileIndex", ti), ("blockNumber", bn), ("hexString", hs), ("version", ver)])])]

/-! ## Concrete platform and environment used by witnesses -/

/-- A concrete platform: `JSON.parse` maps the stored index text to the
parsed array and everything else to `null`; serialization and compression
are trivial stand-ins (both are free parameters of every general theorem). -/
def examplePlatform : Platform :=
  ⟨fun s => if s = "[3,7]" then some (.arr [.num (.num 3 0), .num (.num 7 0)]) else some .null,
   fun _ => "", fun s => s⟩

/-- A concrete all-success environment whose stored index entry is `[3,7]`. -/
def exampleEnv : Env :=
  ⟨.ok "", none, none, .ok (.obj [("Item", .obj [("value", .str "[3,7]")])]), none⟩

example : indexUpdate examplePlatform exampleEnv "7" "1.0" =
    (.resolved, [.getGlobal "buildIndicesV1.0",
      .putGlobal "buildIndicesV1.0" [.num (.num 3 0), .num (.num 7 0)]]) := rfl

example : indexUpdate examplePlatform exampleEnv "9" "1.0" =
    (.resolved, [.getGlobal "buildIndicesV1.0",
      .putGlobal "buildIndicesV1.0" [.num (.num 3 0), .num (.num 7 0), .num (.num 9 0)]]) := rfl

example :
    (handler examplePlatform exampleEnv
      (mkEvent (.str "5") (.str "1") (.str "ab") (.str "1.0"))).1 = .resolved := rfl

example : handler examplePlatform exampleEnv .undefined =
    (.rejected (some (.error "event is invalid or missing")), []) := rfl

example : handler examplePlatform exampleEnv
      (mkEvent (.str "1089") (.str "1") (.str "ab") (.str "1.0")) =
    (.rejected (some (.error "event.params.querystring.tileIndex is invalid or missing")), []) := rfl

/-! ## Value semantics of the decimal number representation -/

theorem decValue_zero (m : Int) : decValue m 0 = (m : ℚ) := by
  unfold decValue
  rw [zpow_zero, mul_one]

theorem decValue_shift (m b : Int) (k : Nat) :
    decValue m (b + k) = decValue (m * 10 ^ k) b := by
  unfold decValue
  rw [zpow_add₀ (by norm_num : (10 : ℚ) ≠ 0), zpow_natCast]
  push_cast
  ring

theorem decValue_inj (m1 m2 b : Int) : decValue m1 b = decValue m2 b ↔ m1 = m2 := by
  unfold decValue
  constructor
  · intro h
    have h10 : (10 : ℚ) ^ b ≠ 0 := zpow_ne_zero _ (by norm_num)
    have := mul_right_cancel₀ h10 h
    exact_mod_cast this
  · intro h
    rw [h]

theorem decValue_lt (m1 m2 b : Int) : decValue m1 b < decValue m2 b ↔ m1 < m2 := by
  unfold decValue
  rw [mul_lt_mul_right (a := (10 : ℚ) ^ b) (by positivity)]
  exact_mod_cast Iff.rfl

/-- `gtInt` computes the value comparison: `m * 10 ^ e > c`. -/
theorem gtInt_eq_decide (m e c : Int) :
    JSNum.gtInt (.num m e) c = decide ((c : ℚ) < decValue m e) := by
  show (if 0 ≤ e then decide (m * 10 ^ e.toNat > c) else decide (m > c * 10 ^ (-e).toNat)) = _
  split_ifs with h
  · have he : e = 0 + (e.toNat : ℤ) := by omega
    have hr : decValue m e = decValue (m * 10 ^ e.toNat) 0 := by
      conv_lhs => rw [he]
      exact decValue_shift m 0 e.toNat
    rw [decide_eq_decide, hr, ← decValue_zero c, decValue_lt]
  · have he : (0 : ℤ) = e + ((-e).toNat : ℤ) := by omega
    have hr : (c : ℚ) = decValue (c * 10 ^ (-e).toNat) e := by
      rw [← decValue_zero c]
      conv_lhs => rw [he]
      exact decValue_shift c e (-e).toNat
    rw [decide_eq_decide, hr, decValue_lt]

/-- `valEq` on finite numbers computes value equality. -/
theorem valEq_eq_decide (m1 e1 m2 e2 : Int) :
    JSNum.valEq (.num m1 e1) (.num m2 e2) = decide (decValue m1 e1 = decValue m2 e2) := by
  show (if e2 ≤ e1 then decide (m1 * 10 ^ (e1 - e2).toNat = m2)
    else decide (m1 = m2 * 10 ^ (e2 - e1).toNat)) = _
  split_ifs with h
  · have he : e1 = e2 + ((e1 - e2).toNat : ℤ) := by omega
    have hr : decValue m1 e1 = decValue (m1 * 10 ^ (e1 - e2).toNat) e2 := by
      conv_lhs => rw [he]
      exact decValue_shift m1 e2 (e1 - e2).toNat
    rw [decide_eq_decide, hr, decValue_inj]
  · have he : e2 = e1 + ((e2 - e1).toNat : ℤ) := by omega
    have hr : decValue m2 e2 = decValue (m2 * 10 ^ (e2 - e1).toNat) e1 := by
      conv_lhs => rw [he]
      exact decValue_shift m2 e1 (e2 - e1).toNat
    rw [decide_eq_decide, hr, decValue_inj]

theorem JSNum.valEq_symm (a b : JSNum) (h : a.valEq b = true) : b.valEq a = true := by
  cases a <;> cases b <;>
    first
    | exact h
    | exact Bool.noConfusion h
    | exact beq_iff_eq.mpr (beq_iff_eq.mp h).symm
    | (rw [valEq_eq_decide] at h ⊢
       simp only [decide_eq_true_eq] at h ⊢
       exact h.symm)

theorem JSNum.valEq_trans (a b c : JSNum) (h1 : a.valEq b = true) (h2 : b.valEq c = true) :
    a.valEq c = true := by
  cases a <;> cases b <;> cases c <;>
    first
    | exact h1
    | exact h2
    | exact Bool.noConfusion h1
    | exact Bool.noConfusion h2
    | exact beq_iff_eq.mpr ((beq_iff_eq.mp h1).trans (beq_iff_eq.mp h2))
    | (rw [valEq_eq_decide] at h1 h2 ⊢
       simp only [decide_eq_true_eq] at h1 h2 ⊢
       exact h1.trans h2)

theorem jsSVZ_symm (x y : JSVal) (h : jsSVZ x y = true) : jsSVZ y x = true := by
  cases x <;> cases y <;>
    first
    | exact h
    | exact Bool.noConfusion h
    | exact beq_iff_eq.mpr (beq_iff_eq.mp h).symm
    | exact JSNum.valEq_symm _ _ h

theorem jsSVZ_trans (x y z : JSVal) (h1 : jsSVZ x y = true) (h2 : jsSVZ y z = true) :
    jsSVZ x z = true := by
  cases x <;> cases y <;> cases z <;>
    first
    | exact h1
    | exact h2
    | exact Bool.noConfusion h1
    | exact Bool.noConfusion h2
    | exact beq_iff_eq.mpr ((beq_iff_eq.mp h1).trans (beq_iff_eq.mp h2))
    | exact JSNum.valEq_trans _ _ _ h1 h2

/-- The two halves of a JS string split concatenate back to the string. -/
theorem jsSlice_append (s : String) (n : Nat) :
    jsSliceTo s n ++ jsSliceFrom s n = s := by
  show String.mk (s.data.take n ++ s.data.drop n) = s
  rw [List.take_append_drop]

/-! ## Set-semantics lemmas -/

/-- No two elements of the list are SameValueZero-equal. -/
def svzDistinct (l : List JSVal) : Prop :=
  List.Pairwise (fun a b => jsSVZ a b = false) l

theorem setInsert_memSVZ (x v : JSVal) (l : List JSVal) :
    (∃ y ∈ setInsert l v, jsSVZ x y = true) ↔
      (∃ y ∈ l, jsSVZ x y = true) ∨ jsSVZ x v = true := by
  unfold setInsert
  split_ifs with h
  · constructor
    · intro hx
      exact Or.inl hx
    · rintro (hx | hx)
      · exact hx
      · rw [List.any_eq_true] at h
        obtain ⟨y, hy, hyv⟩ := h
        exact ⟨y, hy, jsSVZ_trans x v y hx (jsSVZ_symm y v hyv)⟩
  · constructor
    · rintro ⟨y, hy, hxy⟩
      rw [List.mem_append, List.mem_singleton] at hy
      rcases hy with hy | rfl
      · exact Or.inl ⟨y, hy, hxy⟩
      · exact Or.inr hxy
    · rintro (⟨y, hy, hxy⟩ | hx)
      · exact ⟨y, by rw [List.mem_append]; exact Or.inl hy, hxy⟩
      · exact ⟨v, by rw [List.mem_append, List.mem_singleton]; exact Or.inr rfl, hx⟩

theorem setDedup_memSVZ (x : JSVal) (xs : List JSVal) :
    (∃ y ∈ setDedup xs, jsSVZ x y = true) ↔ ∃ y ∈ xs, jsSVZ x y = true := by
  have main : ∀ (l acc : List JSVal),
      (∃ y ∈ List.foldl setInsert acc l, jsSVZ x y = true) ↔
        ((∃ y ∈ acc, jsSVZ x y = true) ∨ ∃ y ∈ l, jsSVZ x y = true) := by
    intro l
    induction l with
    | nil => intro acc; simp
    | cons a t ih =>
      intro acc
      rw [List.foldl_cons, ih, setInsert_memSVZ]
      simp only [List.mem_cons]
      constructor
      · rintro ((h | h) | h)
        · exact Or.inl h
        · exact Or.inr ⟨a, Or.inl rfl, h⟩
        · obtain ⟨y, hy, hxy⟩ := h
          exact Or.inr ⟨y, Or.inr hy, hxy⟩
      · rintro (h | ⟨y, (rfl | hy), hxy⟩)
        · exact Or.inl (Or.inl h)
        · exact Or.inl (Or.inr hxy)
        · exact Or.inr ⟨y, hy, hxy⟩
  have h := main xs []
  simp only [List.not_mem_nil, false_and, exists_false, false_or] at h
  exact h

theorem setInsert_svzDistinct (l : List JSVal) (v : JSVal) (h : svzDistinct l) :
    svzDistinct (setInsert l v) := by
  unfold setInsert
  split_ifs with hany
  · exact h
  · unfold svzDistinct at h ⊢
    rw [List.pairwise_append]
    refine ⟨h, List.pairwise_singleton _ _, ?_⟩
    intro a ha b hb
    rw [List.mem_singleton] at hb
    subst hb
    by_contra hab
    rw [Bool.not_eq_false] at hab
    exact hany (List.any_eq_true.mpr ⟨a, ha, hab⟩)

theorem setDedup_svzDistinct (xs : List JSVal) : svzDistinct (setDedup xs) := by
  have main : ∀ (l acc : List JSVal), svzDistinct acc →
      svzDistinct (List.foldl setInsert acc l) := by
    intro l
    induction l with
    | nil => intro acc h; exact h
    | cons a t ih => intro acc h; exact ih _ (setInsert_svzDistinct _ _ h)
  exact main xs [] List.Pairwise.nil

/-! ## Validation lemmas -/

theorem validationError_none_iff (event : JSVal) :
    validationError event = none ↔
      checkEvent event = false ∧ checkParams event = false ∧ checkQuerystring event = false ∧
      checkTileIndex event = false ∧ checkBlockNumber event = false ∧
      checkHexString event = false ∧ checkVersion event = false := by
  unfold validationError
  split_ifs <;> simp_all

theorem validationError_msg_mem (event : JSVal) (msg : String)
    (h : validationError event = some msg) :
    msg ∈ ["event is invalid or missing", "event.params is invalid or missing",
      "event.params.querystring is invalid or missing",
      "event.params.querystring.tileIndex is invalid or missing",
      "event.params.querystring.blockNumber is invalid or missing",
      "event.params.querystring.hexString is invalid or missing",
      "Invalid or missing version parameter"] := by
  unfold validationError at h
  split_ifs at h <;> simp_all

/-- A fully valid wire-shaped event passes validation and runs the pipeline
on its (necessarily string) fields. -/
theorem handler_mkEvent (p : Platform) (env : Env) (ti bn hs ver : JSVal)
    (hti : tileIndexBad ti = false) (hbn : blockNumberBad bn = false)
    (hhs : hs.truthy = true) (hver : versionOk ver = true) :
    handler p env (mkEvent ti bn hs ver) =
      pipeline p env (strOf ti) (strOf bn) (strOf ver) hs := by
  have h4 : checkTileIndex (mkEvent ti bn hs ver) = tileIndexBad ti := rfl
  have h5 : checkBlockNumber (mkEvent ti bn hs ver) = blockNumberBad bn := rfl
  have h6 : checkHexString (mkEvent ti bn hs ver) = !hs.truthy := rfl
  have h7 : checkVersion (mkEvent ti bn hs ver) = !versionOk ver := rfl
  have hv : validationError (mkEvent ti bn hs ver) = none := by
    rw [validationError_none_iff]
    refine ⟨rfl, rfl, rfl, ?_, ?_, ?_, ?_⟩
    · rw [h4, hti]
    · rw [h5, hbn]
    · rw [h6, hhs]; rfl
    · rw [h7, hver]; rfl
  unfold handler
  rw [hv]
  rfl

/-! ## Pipeline plumbing lemmas -/

theorem indexUpdate_calls_shape (p : Platform) (env : Env) (tis v : String) :
    (indexUpdate p env tis v).2 = [Call.getGlobal ("buildIndicesV" ++ v)] ∨
    ∃ l, (indexUpdate p env tis v).2 =
      [Call.getGlobal ("buildIndicesV" ++ v), Call.putGlobal ("buildIndicesV" ++ v) l] := by
  unfold indexUpdate
  repeat' split
  all_goals first
    | exact Or.inl rfl
    | exact Or.inr ⟨_, rfl⟩

theorem indexUpdate_no_putBuild (p : Platform) (env : Env) (tis v : String) :
    List.filterMap (fun c => match c with | Call.putBuild i => some i | _ => none)
      (indexUpdate p env tis v).2 = [] := by
  rcases indexUpdate_calls_shape p env tis v with h | ⟨l, h⟩ <;> rw [h] <;> rfl

theorem indexUpdate_getErr (p : Platform) (env : Env) (tis v : String) (e : ErrVal)
    (hget : env.getResult = .error e) :
    indexUpdate p env tis v = (.rejected (some e), [.getGlobal ("buildIndicesV" ++ v)]) := by
  unfold indexUpdate
  simp only [hget]

theorem indexUpdate_ok (p : Platform) (env : Env) (tis v : String) (entry : JSVal)
    (flds : List (String × JSVal)) (s : String) (xs : List JSVal)
    (hget : env.getResult = .ok entry)
    (hitem : entry.getField "Item" = .obj flds)
    (hval : (JSVal.obj flds).getField "value" = .str s)
    (hparse : p.jsonParse s = some (.arr xs)) :
    indexUpdate p env tis v =
      ((match env.putIndexResult with
        | some _ => Outcome.rejected none
        | none => Outcome.resolved),
       [Call.getGlobal ("buildIndicesV" ++ v),
        Call.putGlobal ("buildIndicesV" ++ v)
          (setInsert (setDedup xs) (.num (strToNumber tis)))]) := by
  unfold indexUpdate
  simp only [hget, hitem, hval, hparse, iterTo]
  cases hpi : env.putIndexResult <;> rfl

theorem indexUpdate_itemAbsent (p : Platform) (env : Env) (tis v : String) (entry : JSVal)
    (hget : env.getResult = .ok entry)
    (hitem : entry.getField "Item" = .undefined) :
    indexUpdate p env tis v = (.thrown "TypeError", [.getGlobal ("buildIndicesV" ++ v)]) := by
  unfold indexUpdate
  simp only [hget, hitem]

theorem pipeline_invoke_err (p : Platform) (env : Env) (tis bns v : String) (hs : JSVal)
    (e : ErrVal) (hinv : env.invokeResult = .error e) :
    pipeline p env tis bns v hs = (.rejected (some e), [.invoke hs]) := by
  unfold pipeline
  simp only [hinv]

theorem pipeline_put1_err (p : Platform) (env : Env) (tis bns v : String) (hs : JSVal)
    (payload : String) (g : JSVal) (e : ErrVal)
    (hinv : env.invokeResult = .ok payload) (hg : p.jsonParse payload = some g)
    (hp1 : env.put1Result = some e) :
    (pipeline p env tis bns v hs).1 = .rejected (some e) := by
  unfold pipeline
  simp only [hinv, hg, hp1]

theorem pipeline_put2_err (p : Platform) (env : Env) (tis bns v : String) (hs : JSVal)
    (payload : String) (g : JSVal) (e : ErrVal)
    (hinv : env.invokeResult = .ok payload) (hg : p.jsonParse payload = some g)
    (hlen : (p.deflate (p.stringify g)).length > 300000)
    (hp1 : env.put1Result = none) (hp2 : env.put2Result = some e) :
    (pipeline p env tis bns v hs).1 = .rejected (some e) := by
  unfold pipeline
  simp only [hinv, hg, hp1, hp2, hlen, if_true]

theorem pipeline_outcome_index (p : Platform) (env : Env) (tis bns v : String) (hs : JSVal)
    (payload : String) (g : JSVal)
    (hinv : env.invokeResult = .ok payload) (hg : p.jsonParse payload = some g)
    (hp1 : env.put1Result = none)
    (hsplit : (p.deflate (p.stringify g)).length > 300000 → env.put2Result = none) :
    (pipeline p env tis bns v hs).1 = (indexUpdate p env tis v).1 := by
  unfold pipeline
  by_cases hl : (p.deflate (p.stringify g)).length > 300000
  · simp only [hinv, hg, hp1, hsplit hl, hl, if_true]
  · simp only [hinv, hg, hp1, hl, if_false]

theorem pipeline_indexWrites (p : Platform) (env : Env) (tis bns v : String) (hs : JSVal)
    (payload : String) (g : JSVal)
    (hinv : env.invokeResult = .ok payload) (hg : p.jsonParse payload = some g)
    (hp1 : env.put1Result = none)
    (hsplit : (p.deflate (p.stringify g)).length > 300000 → env.put2Result = none) :
    indexWrites (pipeline p env tis bns v hs) = indexWrites ((indexUpdate p env tis v).1, (indexUpdate p env tis v).2) := by
  unfold pipeline indexWrites
  by_cases hl : (p.deflate (p.stringify g)).length > 300000
  · simp only [hinv, hg, hp1, hsplit hl, hl, if_true, List.filterMap_append]
    rfl
  · simp only [hinv, hg, hp1, hl, if_false, List.filterMap_append]
    rfl

theorem pipeline_records_split (p : Platform) (env : Env) (tis bns v : String) (hs : JSVal)
    (payload : String) (g : JSVal)
    (hinv : env.invokeResult = .ok payload) (hg : p.jsonParse payload = some g)
    (hlen : (p.deflate (p.stringify g)).length > 300000)
    (hp1 : env.put1Result = none) :
    recordsWritten (pipeline p env tis bns v hs) =
      [⟨tis ++ "v" ++ v, strToNumber bns, jsSliceTo (p.deflate (p.stringify g)) 300000,
         .str tis, .str v, hs⟩,
       ⟨tis ++ "v" ++ v ++ "_2", strToNumber bns, jsSliceFrom (p.deflate (p.stringify g)) 300000,
         .str tis, .str v, hs⟩] := by
  unfold pipeline recordsWritten
  simp only [hinv, hg, hp1, hlen, if_true]
  cases hp2 : env.put2Result with
  | some e => rfl
  | none =>
    simp only [List.filterMap_append, indexUpdate_no_putBuild]
    rfl

theorem pipeline_records_nonsplit (p : Platform) (env : Env) (tis bns v : String) (hs : JSVal)
    (payload : String) (g : JSVal)
    (hinv : env.invokeResult = .ok payload) (hg : p.jsonParse payload = some g)
    (hlen : ¬ (p.deflate (p.stringify g)).length > 300000) :
    recordsWritten (pipeline p env tis bns v hs) =
      [⟨tis ++ "v" ++ v, strToNumber bns, p.deflate (p.stringify g), .str tis, .str v, hs⟩] := by
  unfold pipeline recordsWritten
  simp only [hinv, hg, hlen, if_false]
  cases hp1 : env.put1Result with
  | some e => rfl
  | none =>
    simp only [List.filterMap_append, indexUpdate_no_putBuild]
    rfl

theorem pipeline_starts_invoke (p : Platform) (env : Env) (tis bns v : String) (hs : JSVal) :
    ∃ rest, (pipeline p env tis bns v hs).2 = Call.invoke hs :: rest := by
  unfold pipeline
  repeat' split
  all_goals (dsimp only; first | exact ⟨_, rfl⟩ | (split <;> exact ⟨_, rfl⟩))

/-! ## The claims -/

/-- C1: for every invocation event that is empty/missing, or lacks `params`,
`querystring`, `tileIndex`, `blockNumber`, or `hexString`, or whose
`tileIndex` or `blockNumber` is non-numeric, or whose `tileIndex` exceeds
1088, or whose `version` is not one of "0.9"/"1.0"/"1.1"/"1.2" — i.e. for
every event failing any of the seven source-order checks — the handler
rejects with one of the descriptive validation errors and makes no outbound
call (no lambda invoke, no store put, no store get). -/
theorem C1_invalid_rejected_no_calls (p : Platform) (env : Env) (event : JSVal)
    (h : checkEvent event = true ∨ checkParams event = true ∨ checkQuerystring event = true ∨
      checkTileIndex event = true ∨ checkBlockNumber event = true ∨
      checkHexString event = true ∨ checkVersion event = true) :
    (handler p env event).2 = [] ∧
    ∃ msg, (handler p env event).1 = .rejected (some (.error msg)) ∧
      msg ∈ ["event is invalid or missing", "event.params is invalid or missing",
        "event.params.querystring is invalid or missing",
        "event.params.querystring.tileIndex is invalid or missing",
        "event.params.querystring.blockNumber is invalid or missing",
        "event.params.querystring.hexString is invalid or missing",
        "Invalid or missing version parameter"] := by
  have hv : validationError event ≠ none := by
    rw [Ne, validationError_none_iff]
    rintro ⟨h1, h2, h3, h4, h5, h6, h7⟩
    rcases h with h | h | h | h | h | h | h <;> simp_all
  cases hm : validationError event with
  | none => exact absurd hm hv
  | some msg =>
    refine ⟨?_, msg, ?_, validationError_msg_mem event msg hm⟩
    · unfold handler
      rw [hm]
    · unfold handler
      rw [hm]

/-- Witness for C1 at the concrete empty event `undefined`. -/
theorem C1_witness :
    (handler examplePlatform exampleEnv JSVal.undefined).2 = [] ∧
    ∃ msg, (handler examplePlatform exampleEnv JSVal.undefined).1 =
        .rejected (some (.error msg)) ∧
      msg ∈ ["event is invalid or missing", "event.params is invalid or missing",
        "event.params.querystring is invalid or missing",
        "event.params.querystring.tileIndex is invalid or missing",
        "event.params.querystring.blockNumber is invalid or missing",
        "event.params.querystring.hexString is invalid or missing",
        "Invalid or missing version parameter"] :=
  C1_invalid_rejected_no_calls examplePlatform exampleEnv JSVal.undefined (Or.inl (by decide))

/-- C4: the numeric check accepts "42" and "3.14", rejects "abc" and the
whitespace-only string "  ", and rejects every value that is not of string
type. -/
theorem C4_isNumeric_spec :
    isNumeric (.str "42") = true ∧ isNumeric (.str "3.14") = true ∧
    isNumeric (.str "abc") = false ∧ isNumeric (.str "  ") = false ∧
    ∀ v : JSVal, v.isStringVal = false → isNumeric v = false := by
  refine ⟨by decide, by decide, by decide, by decide, ?_⟩
  intro v hv
  cases v <;> first | rfl | exact Bool.noConfusion hv

/-- Witness for C4 at concrete non-string inputs. -/
theorem C4_witness :
    isNumeric (.num (.num 42 0)) = false ∧ isNumeric .null = false ∧
    isNumeric .undefined = false ∧ isNumeric (.obj []) = false :=
  ⟨C4_isNumeric_spec.2.2.2.2 _ rfl, C4_isNumeric_spec.2.2.2.2 _ rfl,
   C4_isNumeric_spec.2.2.2.2 _ rfl, C4_isNumeric_spec.2.2.2.2 _ rfl⟩

/-- C6: validation is order-dependent and short-circuits — whenever the
`i`-th check (in the fixed source order: event-empty, params, querystring,
tileIndex, blockNumber, hexString, version) fails and every earlier check
passes, the handler rejects with exactly the `i`-th check's message and
makes no outbound call, regardless of the later checks. -/
theorem C6_first_failing_check (p : Platform) (env : Env) (event : JSVal)
    (i : Fin checkList.length)
    (hfail : (checkList.get i).1 event = true)
    (hfirst : ∀ j : Fin checkList.length, j.val < i.val → (checkList.get j).1 event = false) :
    handler p env event = (.rejected (some (.error (checkList.get i).2)), []) := by
  have hmsg : validationError event = some (checkList.get i).2 := by
    fin_cases i
    · have h0 : checkEvent event = true := hfail
      unfold validationError
      rw [h0]
      rfl
    · have h0 : checkEvent event = false := hfirst ⟨0, by decide⟩ (by decide)
      have h1 : checkParams event = true := hfail
      unfold validationError
      rw [h0, h1]
      rfl
    · have h0 : checkEvent event = false := hfirst ⟨0, by decide⟩ (by decide)
      have h1 : checkParams event = false := hfirst ⟨1, by decide⟩ (by decide)
      have h2 : checkQuerystring event = true := hfail
      unfold validationError
      rw [h0, h1, h2]
      rfl
    · have h0 : checkEvent event = false := hfirst ⟨0, by decide⟩ (by decide)
      have h1 : checkParams event = false := hfirst ⟨1, by decide⟩ (by decide)
      have h2 : checkQuerystring event = false := hfirst ⟨2, by decide⟩ (by decide)
      have h3 : checkTileIndex event = true := hfail
      unfold validationError
      rw [h0, h1, h2, h3]
      rfl
    · have h0 : checkEvent event = false := hfirst ⟨0, by decide⟩ (by decide)
      have h1 : checkParams event = false := hfirst ⟨1, by decide⟩ (by decide)
      have h2 : checkQuerystring event = false := hfirst ⟨2, by decide⟩ (by decide)
      have h3 : checkTileIndex event = false := hfirst ⟨3, by decide⟩ (by decide)
      have h4 : checkBlockNumber event = true := hfail
      unfold validationError
      rw [h0, h1, h2, h3, h4]
      rfl
    · have h0 : checkEvent event = false := hfirst ⟨0, by decide⟩ (by decide)
      have h1 : checkParams event = false := hfirst ⟨1, by decide⟩ (by decide)
      have h2 : checkQuerystring event = false := hfirst ⟨2, by decide⟩ (by decide)
      have h3 : checkTileIndex event = false := hfirst ⟨3, by decide⟩ (by decide)
      have h4 : checkBlockNumber event = false := hfirst ⟨4, by decide⟩ (by decide)
      have h5 : checkHexString event = true := hfail
      unfold validationError
      rw [h0, h1, h2, h3, h4, h5]
      rfl
    · have h0 : checkEvent event = false := hfirst ⟨0, by decide⟩ (by decide)
      have h1 : checkParams event = false := hfirst ⟨1, by decide⟩ (by decide)
      have h2 : checkQuerystring event = false := hfirst ⟨2, by decide⟩ (by decide)
      have h3 : checkTileIndex event = false := hfirst ⟨3, by decide⟩ (by decide)
      have h4 : checkBlockNumber event = false := hfirst ⟨4, by decide⟩ (by decide)
      have h5 : checkHexString event = false := hfirst ⟨5, by decide⟩ (by decide)
      have h6 : checkVersion event = true := hfail
      unfold validationError
      rw [h0, h1, h2, h3, h4, h5, h6]
      rfl
  unfold handler
  rw [hmsg]

/-- Witness for C6: a concrete event whose first failing check is the
tileIndex check (index 3). -/
theorem C6_witness :
    handler examplePlatform exampleEnv
        (mkEvent (.str "abc") (.str "1") (.str "ab") (.str "1.0")) =
      (.rejected (some (.error "event.params.querystring.tileIndex is invalid or missing")), []) :=
  C6_first_failing_check examplePlatform exampleEnv
    (mkEvent (.str "abc") (.str "1") (.str "ab") (.str "1.0"))
    ⟨3, by decide⟩ (by decide) (by decide)

/-- C9: the tileIndex validation has no lower bound and no integrality
requirement — every string accepted in its entirety by the numeric check
whose numeric value is at most 1088 (and not 0, i.e. truthy as the claim
carves out), including negatives such as "-5" and non-integers such as
"3.5", passes the tileIndex check, an otherwise-valid event with it passes
the whole validation, and the pipeline proceeds with it (the lambda
invocation is issued). -/
theorem C9_no_lower_bound_or_integrality (s : String) (m e : Int)
    (hnum : isNumericStr s = true)
    (hval : strToNumber s = .num m e)
    (hle : decValue m e ≤ 1088)
    (_hnz : decValue m e ≠ 0) :
    tileIndexBad (.str s) = false ∧
    validationError (mkEvent (.str s) (.str "1") (.str "ab") (.str "1.0")) = none ∧
    ∀ (p : Platform) (env : Env), ∃ rest,
      (handler p env (mkEvent (.str s) (.str "1") (.str "ab") (.str "1.0"))).2 =
        Call.invoke (.str "ab") :: rest := by
  have hs : s ≠ "" := by
    intro h
    subst h
    exact Bool.noConfusion hnum
  have hgt : (strToNumber s).gtInt 1088 = false := by
    rw [hval, gtInt_eq_decide]
    simp only [decide_eq_false_iff_not]
    exact not_lt.mpr (by exact_mod_cast hle)
  have hbad : tileIndexBad (.str s) = false := by
    show (s == "" || !isNumericStr s || (strToNumber s).gtInt 1088) = false
    rw [hnum, hgt]
    simp [hs]
  refine ⟨hbad, ?_, ?_⟩
  · rw [validationError_none_iff]
    exact ⟨rfl, rfl, rfl, hbad,
      (by decide : blockNumberBad (JSVal.str "1") = false),
      (by decide : (!JSVal.truthy (JSVal.str "ab")) = false),
      (by decide : (!versionOk (JSVal.str "1.0")) = false)⟩
  · intro p env
    rw [handler_mkEvent p env _ _ _ _ hbad (by decide) (by decide) (by decide)]
    exact pipeline_starts_invoke p env s "1" "1.0" (.str "ab")

/-- Witness for C9 at the negative "-5" and the non-integer "3.5". -/
theorem C9_witness :
    (tileIndexBad (.str "-5") = false ∧
      validationError (mkEvent (.str "-5") (.str "1") (.str "ab") (.str "1.0")) = none ∧
      ∀ (p : Platform) (env : Env), ∃ rest,
        (handler p env (mkEvent (.str "-5") (.str "1") (.str "ab") (.str "1.0"))).2 =
          Call.invoke (.str "ab") :: rest) ∧
    (tileIndexBad (.str "3.5") = false ∧
      validationError (mkEvent (.str "3.5") (.str "1") (.str "ab") (.str "1.0")) = none ∧
      ∀ (p : Platform) (env : Env), ∃ rest,
        (handler p env (mkEvent (.str "3.5") (.str "1") (.str "ab") (.str "1.0"))).2 =
          Call.invoke (.str "ab") :: rest) :=
  ⟨C9_no_lower_bound_or_integrality "-5" (-5) 0 (by decide) (by decide)
      (by norm_num [decValue]) (by norm_num [decValue]),
   C9_no_lower_bound_or_integrality "3.5" 35 (-1) (by decide) (by decide)
      (by norm_num [decValue]) (by norm_num [decValue])⟩

/-- C10: a `tileIndex` or `blockNumber` present but not of string type (for
example the JSON number 42) is rejected as invalid, because the numeric
check returns false for every non-string value. -/
theorem C10_nonstring_fields_rejected :
    (∀ v : JSVal, v.isStringVal = false → isNumeric v = false) ∧
    (∀ (p : Platform) (env : Env) (ti bn hs ver : JSVal), ti.isStringVal = false →
      handler p env (mkEvent ti bn hs ver) =
        (.rejected (some (.error "event.params.querystring.tileIndex is invalid or missing")), [])) ∧
    (∀ (p : Platform) (env : Env) (ti bn hs ver : JSVal), tileIndexBad ti = false →
      bn.isStringVal = false →
      handler p env (mkEvent ti bn hs ver) =
        (.rejected (some (.error "event.params.querystring.blockNumber is invalid or missing")), [])) := by
  refine ⟨?_, ?_, ?_⟩
  · intro v hv
    cases v <;> first | rfl | exact Bool.noConfusion hv
  · intro p env ti bn hs ver hti
    have hbad : tileIndexBad ti = true := by
      cases ti <;> first | rfl | exact Bool.noConfusion hti
    have hv : validationError (mkEvent ti bn hs ver) =
        some "event.params.querystring.tileIndex is invalid or missing" := by
      have h4 : checkTileIndex (mkEvent ti bn hs ver) = true := hbad
      unfold validationError
      rw [show checkEvent (mkEvent ti bn hs ver) = false from rfl,
        show checkParams (mkEvent ti bn hs ver) = false from rfl,
        show checkQuerystring (mkEvent ti bn hs ver) = false from rfl, h4]
      rfl
    unfold handler
    rw [hv]
  · intro p env ti bn hs ver hti hbn
    have hbad : blockNumberBad bn = true := by
      cases bn <;> first | rfl | exact Bool.noConfusion hbn
    have hv : validationError (mkEvent ti bn hs ver) =
        some "event.params.querystring.blockNumber is invalid or missing" := by
      have h4 : checkTileIndex (mkEvent ti bn hs ver) = false := hti
      have h5 : checkBlockNumber (mkEvent ti bn hs ver) = true := hbad
      unfold validationError
      rw [show checkEvent (mkEvent ti bn hs ver) = false from rfl,
        show checkParams (mkEvent ti bn hs ver) = false from rfl,
        show checkQuerystring (mkEvent ti bn hs ver) = false from rfl, h4, h5]
      rfl
    unfold handler
    rw [hv]

/-- Witness for C10 at the JSON number 42 in each field. -/
theorem C10_witness :
    handler examplePlatform exampleEnv
        (mkEvent (.num (.num 42 0)) (.str "1") (.str "ab") (.str "1.0")) =
      (.rejected (some (.error "event.params.querystring.tileIndex is invalid or missing")), []) ∧
    handler examplePlatform exampleEnv
        (mkEvent (.str "5") (.num (.num 42 0)) (.str "ab") (.str "1.0")) =
      (.rejected (some (.error "event.params.querystring.blockNumber is invalid or missing")), []) :=
  ⟨C10_nonstring_fields_rejected.2.1 examplePlatform exampleEnv _ _ _ _ rfl,
   C10_nonstring_fields_rejected.2.2 examplePlatform exampleEnv _ _ _ _ (by decide) rfl⟩

/-- A 300001-character compressed output, for the split witness. -/
def bigString : String := ⟨List.replicate 300001 'a'⟩

theorem bigString_length : bigString.length = 300001 := by
  show (List.replicate 300001 'a').length = 300001
  exact List.length_replicate 300001 'a'

/-- Platform whose compression output is 300001 characters long. -/
def bigPlatform : Platform := ⟨fun _ => some .null, fun _ => "", fun _ => bigString⟩

/-- Platform whose compression output is exactly 300000 characters long. -/
def edgePlatform : Platform :=
  ⟨fun _ => some .null, fun _ => "", fun _ => ⟨List.replicate 300000 'a'⟩⟩

/-- C2: for every valid event whose compressed geometry string is strictly
longer than 300000 characters, exactly two records are written — the first
keyed `tileIndex ++ "v" ++ version` holding the first 300000 characters, the
second keyed with the extra suffix `_2` holding the remainder — and the two
payloads concatenate back to the compressed string exactly. -/
theorem C2_split_two_records (p : Platform) (env : Env) (ti bn hs ver : JSVal)
    (payload : String) (g : JSVal)
    (hti : tileIndexBad ti = false) (hbn : blockNumberBad bn = false)
    (hhs : hs.truthy = true) (hver : versionOk ver = true)
    (hinv : env.invokeResult = .ok payload) (hg : p.jsonParse payload = some g)
    (hlen : (p.deflate (p.stringify g)).length > 300000)
    (hp1 : env.put1Result = none) :
    recordsWritten (handler p env (mkEvent ti bn hs ver)) =
      [⟨strOf ti ++ "v" ++ strOf ver, strToNumber (strOf bn),
          jsSliceTo (p.deflate (p.stringify g)) 300000, .str (strOf ti), .str (strOf ver), hs⟩,
       ⟨strOf ti ++ "v" ++ strOf ver ++ "_2", strToNumber (strOf bn),
          jsSliceFrom (p.deflate (p.stringify g)) 300000, .str (strOf ti), .str (strOf ver), hs⟩] ∧
    jsSliceTo (p.deflate (p.stringify g)) 300000 ++ jsSliceFrom (p.deflate (p.stringify g)) 300000
      = p.deflate (p.stringify g) := by
  refine ⟨?_, jsSlice_append _ _⟩
  rw [handler_mkEvent p env ti bn hs ver hti hbn hhs hver]
  exact pipeline_records_split p env _ _ _ hs payload g hinv hg hlen hp1

/-- Witness for C2 on a 300001-character compressed string. -/
theorem C2_witness :
    recordsWritten (handler bigPlatform exampleEnv
        (mkEvent (.str "5") (.str "1") (.str "ab") (.str "1.0"))) =
      [⟨"5" ++ "v" ++ "1.0", strToNumber "1",
          jsSliceTo (bigPlatform.deflate (bigPlatform.stringify .null)) 300000,
          .str "5", .str "1.0", .str "ab"⟩,
       ⟨"5" ++ "v" ++ "1.0" ++ "_2", strToNumber "1",
          jsSliceFrom (bigPlatform.deflate (bigPlatform.stringify .null)) 300000,
          .str "5", .str "1.0", .str "ab"⟩] ∧
    jsSliceTo (bigPlatform.deflate (bigPlatform.stringify .null)) 300000 ++
        jsSliceFrom (bigPlatform.deflate (bigPlatform.stringify .null)) 300000
      = bigPlatform.deflate (bigPlatform.stringify .null) :=
  C2_split_two_records bigPlatform exampleEnv (.str "5") (.str "1") (.str "ab") (.str "1.0")
    "" .null (by decide) (by decide) (by decide) (by decide) rfl rfl
    (by show bigString.length > 300000
        rw [bigString_length]
        omega)
    rfl

/-- C3: for every valid event whose compressed geometry string has length at
most 300000 characters (the boundary included), exactly one record is
written, holding the entire compressed string. -/
theorem C3_single_record (p : Platform) (env : Env) (ti bn hs ver : JSVal)
    (payload : String) (g : JSVal)
    (hti : tileIndexBad ti = false) (hbn : blockNumberBad bn = false)
    (hhs : hs.truthy = true) (hver : versionOk ver = true)
    (hinv : env.invokeResult = .ok payload) (hg : p.jsonParse payload = some g)
    (hlen : (p.deflate (p.stringify g)).length ≤ 300000) :
    recordsWritten (handler p env (mkEvent ti bn hs ver)) =
      [⟨strOf ti ++ "v" ++ strOf ver, strToNumber (strOf bn), p.deflate (p.stringify g),
        .str (strOf ti), .str (strOf ver), hs⟩] := by
  rw [handler_mkEvent p env ti bn hs ver hti hbn hhs hver]
  exact pipeline_records_nonsplit p env _ _ _ hs payload g hinv hg (not_lt.mpr hlen)

/-- Witness for C3 on a compressed string of exactly 300000 characters. -/
theorem C3_witness :
    recordsWritten (handler edgePlatform exampleEnv
        (mkEvent (.str "5") (.str "1") (.str "ab") (.str "1.0"))) =
      [⟨"5" ++ "v" ++ "1.0", strToNumber "1",
          edgePlatform.deflate (edgePlatform.stringify .null),
          .str "5", .str "1.0", .str "ab"⟩] :=
  C3_single_record edgePlatform exampleEnv (.str "5") (.str "1") (.str "ab") (.str "1.0")
    "" .null (by decide) (by decide) (by decide) (by decide) rfl rfl
    (by show (List.replicate 300000 'a').length ≤ 300000
        rw [List.length_replicate])

/-- C5: the index-update step applied to stored list `[3, 7]` leaves the
written list `[3, 7]` for tileIndex "7" and makes it `[3, 7, 9]` for
tileIndex "9"; in general the rewritten index is the prior list with the
numeric-coerced tileIndex set-added — its members are exactly those of the
prior list plus the coerced tileIndex, and it contains no duplicates
(SameValueZero). -/
theorem C5_index_set_add :
    (indexUpdate examplePlatform exampleEnv "7" "1.0" =
      (.resolved, [.getGlobal "buildIndicesV1.0",
        .putGlobal "buildIndicesV1.0" [.num (.num 3 0), .num (.num 7 0)]])) ∧
    (indexUpdate examplePlatform exampleEnv "9" "1.0" =
      (.resolved, [.getGlobal "buildIndicesV1.0",
        .putGlobal "buildIndicesV1.0" [.num (.num 3 0), .num (.num 7 0), .num (.num 9 0)]])) ∧
    ∀ (p : Platform) (env : Env) (tis v : String) (entry : JSVal)
      (flds : List (String × JSVal)) (s : String) (xs : List JSVal),
      env.getResult = .ok entry →
      entry.getField "Item" = .obj flds →
      (JSVal.obj flds).getField "value" = .str s →
      p.jsonParse s = some (.arr xs) →
      ∃ l, indexWrites (indexUpdate p env tis v) = [("buildIndicesV" ++ v, l)] ∧
        svzDistinct l ∧
        ∀ x, (∃ y ∈ l, jsSVZ x y = true) ↔
          ((∃ y ∈ xs, jsSVZ x y = true) ∨ jsSVZ x (.num (strToNumber tis)) = true) := by
  refine ⟨rfl, rfl, ?_⟩
  intro p env tis v entry flds s xs hget hitem hval hparse
  refine ⟨setInsert (setDedup xs) (.num (strToNumber tis)), ?_, ?_, ?_⟩
  · rw [indexUpdate_ok p env tis v entry flds s xs hget hitem hval hparse]
    rfl
  · exact setInsert_svzDistinct _ _ (setDedup_svzDistinct xs)
  · intro x
    rw [setInsert_memSVZ, setDedup_memSVZ]

/-- Witness for C5's general part at the stored list `[3, 7]` and
tileIndex "9". -/
theorem C5_witness :
    ∃ l, indexWrites (indexUpdate examplePlatform exampleEnv "9" "1.0") =
        [("buildIndicesV" ++ "1.0", l)] ∧
      svzDistinct l ∧
      ∀ x, (∃ y ∈ l, jsSVZ x y = true) ↔
        ((∃ y ∈ [JSVal.num (.num 3 0), JSVal.num (.num 7 0)], jsSVZ x y = true) ∨
          jsSVZ x (.num (strToNumber "9")) = true) :=
  C5_index_set_add.2.2 examplePlatform exampleEnv "9" "1.0"
    (.obj [("Item", .obj [("value", .str "[3,7]")])])
    [("value", .str "[3,7]")] "[3,7]"
    [JSVal.num (.num 3 0), JSVal.num (.num 7 0)] rfl rfl rfl rfl

/-- Environment whose lambda invocation fails. -/
def failInvokeEnv : Env := ⟨.error (.ext 1), none, none, .ok .null, none⟩

/-- Environment whose final index put fails (everything earlier succeeds). -/
def failIndexEnv : Env :=
  ⟨.ok "", none, none, .ok (.obj [("Item", .obj [("value", .str "[3,7]")])]), some (.ext 0)⟩

/-- C7: every remote-call failure (invoke, first put, second put, index get)
rejects the operation with the underlying error surfaced verbatim — except
the final write of the updated index list, whose failure makes the handler
reject with no error value at all, silently dropping the underlying error
detail. -/
theorem C7_error_surfacing (p : Platform) (env : Env) (ti bn hs ver : JSVal)
    (hti : tileIndexBad ti = false) (hbn : blockNumberBad bn = false)
    (hhs : hs.truthy = true) (hver : versionOk ver = true) :
    (∀ e, env.invokeResult = .error e →
      (handler p env (mkEvent ti bn hs ver)).1 = .rejected (some e)) ∧
    (∀ e payload g, env.invokeResult = .ok payload → p.jsonParse payload = some g →
      env.put1Result = some e →
      (handler p env (mkEvent ti bn hs ver)).1 = .rejected (some e)) ∧
    (∀ e payload g, env.invokeResult = .ok payload → p.jsonParse payload = some g →
      (p.deflate (p.stringify g)).length > 300000 →
      env.put1Result = none → env.put2Result = some e →
      (handler p env (mkEvent ti bn hs ver)).1 = .rejected (some e)) ∧
    (∀ e payload g, env.invokeResult = .ok payload → p.jsonParse payload = some g →
      env.put1Result = none →
      ((p.deflate (p.stringify g)).length > 300000 → env.put2Result = none) →
      env.getResult = .error e →
      (handler p env (mkEvent ti bn hs ver)).1 = .rejected (some e)) ∧
    (∀ eErr payload g entry flds s xs, env.invokeResult = .ok payload →
      p.jsonParse payload = some g → env.put1Result = none →
      ((p.deflate (p.stringify g)).length > 300000 → env.put2Result = none) →
      env.getResult = .ok entry → entry.getField "Item" = .obj flds →
      (JSVal.obj flds).getField "value" = .str s → p.jsonParse s = some (.arr xs) →
      env.putIndexResult = some eErr →
      (handler p env (mkEvent ti bn hs ver)).1 = .rejected none) := by
  have hrw := handler_mkEvent p env ti bn hs ver hti hbn hhs hver
  refine ⟨?_, ?_, ?_, ?_, ?_⟩
  · intro e hinv
    rw [hrw, pipeline_invoke_err p env _ _ _ hs e hinv]
  · intro e payload g hinv hg hp1
    rw [hrw]
    exact pipeline_put1_err p env _ _ _ hs payload g e hinv hg hp1
  · intro e payload g hinv hg hlen hp1 hp2
    rw [hrw]
    exact pipeline_put2_err p env _ _ _ hs payload g e hinv hg hlen hp1 hp2
  · intro e payload g hinv hg hp1 hsplit hget
    rw [hrw, pipeline_outcome_index p env _ _ _ hs payload g hinv hg hp1 hsplit,
      indexUpdate_getErr p env _ _ e hget]
  · intro eErr payload g entry flds s xs hinv hg hp1 hsplit hget hitem hval hparse hpi
    rw [hrw, pipeline_outcome_index p env _ _ _ hs payload g hinv hg hp1 hsplit,
      indexUpdate_ok p env _ _ entry flds s xs hget hitem hval hparse, hpi]

/-- Witness for C7: a failing invoke surfaces its error object verbatim, and
a failing final index put rejects with no error value. -/
theorem C7_witness :
    (handler examplePlatform failInvokeEnv
        (mkEvent (.str "5") (.str "1") (.str "ab") (.str "1.0"))).1 =
      .rejected (some (.ext 1)) ∧
    (handler examplePlatform failIndexEnv
        (mkEvent (.str "5") (.str "1") (.str "ab") (.str "1.0"))).1 =
      .rejected none :=
  ⟨(C7_error_surfacing examplePlatform failInvokeEnv (.str "5") (.str "1") (.str "ab")
      (.str "1.0") (by decide) (by decide) (by decide) (by decide)).1 (.ext 1) rfl,
   (C7_error_surfacing examplePlatform failIndexEnv (.str "5") (.str "1") (.str "ab")
      (.str "1.0") (by decide) (by decide) (by decide) (by decide)).2.2.2.2 (.ext 0) "" .null
      (.obj [("Item", .obj [("value", .str "[3,7]")])]) [("value", .str "[3,7]")] "[3,7]"
      [JSVal.num (.num 3 0), JSVal.num (.num 7 0)]
      rfl rfl rfl (fun _ => rfl) rfl rfl rfl rfl rfl⟩

/-- Environment whose index get succeeds but returns no `Item`. -/
def noItemEnv : Env := ⟨.ok "", none, none, .ok (.obj []), none⟩

/-- C8: when the stored index entry for the event's version is absent (the
get returns no `Item`), the index-update step fails the overall operation —
reading `.value` of the missing item throws a TypeError, the promise never
resolves, and no index write is attempted. -/
theorem C8_missing_index_entry_fails (p : Platform) (env : Env) (ti bn hs ver : JSVal)
    (payload : String) (g : JSVal) (entry : JSVal)
    (hti : tileIndexBad ti = false) (hbn : blockNumberBad bn = false)
    (hhs : hs.truthy = true) (hver : versionOk ver = true)
    (hinv : env.invokeResult = .ok payload) (hg : p.jsonParse payload = some g)
    (hp1 : env.put1Result = none)
    (hsplit : (p.deflate (p.stringify g)).length > 300000 → env.put2Result = none)
    (hget : env.getResult = .ok entry)
    (hitem : entry.getField "Item" = .undefined) :
    (handler p env (mkEvent ti bn hs ver)).1 = .thrown "TypeError" ∧
    indexWrites (handler p env (mkEvent ti bn hs ver)) = [] := by
  have hrw := handler_mkEvent p env ti bn hs ver hti hbn hhs hver
  constructor
  · rw [hrw, pipeline_outcome_index p env _ _ _ hs payload g hinv hg hp1 hsplit,
      indexUpdate_itemAbsent p env _ _ entry hget hitem]
  · rw [hrw, pipeline_indexWrites p env _ _ _ hs payload g hinv hg hp1 hsplit,
      indexUpdate_itemAbsent p env _ _ entry hget hitem]
    rfl

/-- Witness for C8 at a concrete store response with no `Item`. -/
theorem C8_witness :
    (handler examplePlatform noItemEnv
        (mkEvent (.str "5") (.str "1") (.str "ab") (.str "1.0"))).1 = .thrown "TypeError" ∧
    indexWrites (handler examplePlatform noItemEnv
        (mkEvent (.str "5") (.str "1") (.str "ab") (.str "1.0"))) = [] :=
  C8_missing_index_entry_fails examplePlatform noItemEnv (.str "5") (.str "1") (.str "ab")
    (.str "1.0") "" .null (.obj []) (by decide) (by decide) (by decide) (by decide)
    rfl rfl rfl (fun _ => rfl) rfl rfl
